import Mathlib

/-!
Verification development for the sentiment-trading backtest repository
(`sentiment.py`, `main.py`, `frontend.py`).

The Python code is shallowly embedded: money, prices and sentiment scores
are modelled by `ℚ`; the hosted database is a record of lists of rows;
Python `int(...)` truncation is `pyInt`; network and database calls that
can raise are modelled by an `Except String` argument holding either the
fetched rows or the raised exception.  Timestamps (`created_at`,
`updated_at`, `timestamp` columns) are side effects of `datetime.now()`
and are omitted from the row models.  Broker order fills performed by the
external backtesting engine are modelled as immediate: placing a buy or
sell order updates the position and the broker cash in the same step,
while the strategy's in-flight order flag stays set until `notify_order`
clears it.
-/

namespace SentimentTrader

/-- Python `int(q)` for a rational `q`: truncation toward zero. -/
def pyInt (q : ℚ) : Int :=
  if 0 ≤ q then ⌊q⌋ else -⌊-q⌋

/-- A row of the `transactions` table, as inserted by
`TraderDatabase.execute_buy_order` / `execute_sell_order`
(`sentiment.py` lines 301-331).  The `timestamp` column is omitted. -/
structure Transaction where
  portfolio_id : Nat
  symbol : String
  quantity : Int
  price : ℚ
  tx_type : String
  deriving DecidableEq, Repr

/-- A row of the `portfolios` table (`sentiment.py` lines 155-172). -/
structure Portfolio where
  portfolio_id : Nat
  user_id : Nat
  name : String
  cash_balance : ℚ
  deriving DecidableEq, Repr

/-- A row of the `holdings` table (`sentiment.py` lines 250-279). -/
structure Holding where
  portfolio_id : Nat
  symbol : String
  quantity : Int
  avg_price : ℚ
  deriving DecidableEq, Repr

/-- A row of the `users` table (`sentiment.py` lines 113-126).  Only the
fields the embedded accessors read are kept. -/
structure User where
  user_id : Nat
  email : String
  deriving DecidableEq, Repr

/-- The hosted database state: the three tables the trading code writes. -/
structure Database where
  portfolios : List Portfolio
  transactions : List Transaction
  holdings : List Holding
  deriving DecidableEq, Repr

/-- `TraderDatabase.update_holding` (`sentiment.py` lines 250-279):
if a holding row for `(portfolio_id, symbol)` exists, overwrite its
`quantity` and `avg_price`; otherwise insert a new row. -/
def update_holding (db : Database) (pid : Nat) (sym : String)
    (quantity : Int) (avg_price : ℚ) : Database :=
  if db.holdings.any (fun h => h.portfolio_id = pid ∧ h.symbol = sym) then
    { db with holdings := db.holdings.map (fun h =>
        if h.portfolio_id = pid ∧ h.symbol = sym then
          { h with quantity := quantity, avg_price := avg_price }
        else h) }
  else
    { db with holdings :=
        db.holdings ++ [⟨pid, sym, quantity, avg_price⟩] }

/-- `TraderDatabase.execute_buy_order` (`sentiment.py` lines 301-317):
insert a `transactions` row with the positive quantity and
`tx_type = 'buy'`, then update the holding. -/
def execute_buy_order (db : Database) (pid : Nat) (sym : String)
    (quantity : Int) (price : ℚ) : Database :=
  let db1 := { db with transactions :=
      db.transactions ++ [⟨pid, sym, quantity, price, "buy"⟩] }
  update_holding db1 pid sym quantity price

/-- `TraderDatabase.execute_sell_order` (`sentiment.py` lines 319-331):
insert a `transactions` row with the negated quantity and
`tx_type = 'sell'`.  No holding update is performed. -/
def execute_sell_order (db : Database) (pid : Nat) (sym : String)
    (quantity : Int) (price : ℚ) : Database :=
  { db with transactions :=
      db.transactions ++ [⟨pid, sym, -quantity, price, "sell"⟩] }

/-- `TraderDatabase.update_portfolio_cash` (`sentiment.py` lines 190-204):
set `cash_balance` of every portfolio row matching `portfolio_id`
(the `updated_at` timestamp is omitted from the model). -/
def update_portfolio_cash (db : Database) (pid : Nat) (cash_value : ℚ) :
    Database :=
  { db with portfolios := db.portfolios.map (fun p =>
      if p.portfolio_id = pid then { p with cash_balance := cash_value }
      else p) }

/-- `SentimentTrader.get_sentiment` (`sentiment.py` lines 32-45).  The
network fetch plus TextBlob scoring is abstracted as an
`Except String (List ℚ)`: either the raised exception or the per-headline
polarity list of the feed entries in feed order.  The code takes the
first 10 entries, averages their polarities, returns 0 on an empty
list, and returns 0 when anything raised. -/
def get_sentiment (fetch : Except String (List ℚ)) : ℚ :=
  match fetch with
  | Except.error _ => 0
  | Except.ok polarities =>
      let sentiments := polarities.take 10
      if sentiments.isEmpty then 0
      else (sentiments.sum) / (sentiments.length : ℚ)

/-- `SentimentTrader.generate_signal` (`sentiment.py` lines 47-49). -/
def generate_signal (score threshold : ℚ) : String :=
  if score > threshold then "buy" else "hold"

/-- Strategy construction parameters (`SentimentTrader.__init__`,
`sentiment.py` lines 23-30). -/
structure Params where
  symbol : String
  portfolio_id : Nat
  sentiment_threshold : ℚ
  hold_days : Nat
  deriving DecidableEq, Repr

/-- The per-run mutable strategy attributes: `self.position.size`
(shares held, 0 when flat), `self.hold_counter`, and whether
`self.order` is set (an order is in flight). -/
structure StratState where
  position : Nat
  hold_counter : Nat
  order : Bool
  deriving DecidableEq, Repr

/-- The combined state stepped by one bar: the strategy attributes, the
broker cash (`self.broker.getcash()`), and the database. -/
structure RunState where
  strat : StratState
  cash : ℚ
  db : Database
  deriving DecidableEq, Repr

/-- `SentimentTrader.next` (`sentiment.py` lines 51-85) for one bar with
closing price `price` and sentiment score `score`.  If an order is in
flight, return immediately.  With an open position, increment the hold
counter; once it reaches `hold_days`, issue a sell of the whole position,
record the sell transaction, and reset the counter.  Otherwise, on a buy
signal compute `size = int(cash * 0.95 / price)` and, when positive, buy
`size` shares, record the buy transaction, and reset the counter.  Order
fills are modelled as immediate (position and cash update in the same
step); the in-flight flag is set until `notify_order` clears it. -/
def nextStep (p : Params) (price score : ℚ) (rs : RunState) : RunState :=
  if rs.strat.order then rs
  else
    let signal := generate_signal score p.sentiment_threshold
    if rs.strat.position ≠ 0 then
      let hc := rs.strat.hold_counter + 1
      if hc ≥ p.hold_days then
        { strat := { position := 0, hold_counter := 0, order := true },
          cash := rs.cash + (rs.strat.position : ℚ) * price,
          db := execute_sell_order rs.db p.portfolio_id p.symbol
                  (rs.strat.position : Int) price }
      else { rs with strat := { rs.strat with hold_counter := hc } }
    else if signal = "buy" then
      let size := pyInt (rs.cash * (95 / 100) / price)
      if size > 0 then
        { strat := { position := size.toNat, hold_counter := 0, order := true },
          cash := rs.cash - (size : ℚ) * price,
          db := execute_buy_order rs.db p.portfolio_id p.symbol size price }
      else rs
    else rs

/-- Order statuses of the external engine that `notify_order` inspects. -/
inductive OrderStatus
  | Submitted | Accepted | Partial | Completed | Canceled | Expired
  | Margin | Rejected
  deriving DecidableEq, Repr

/-- `SentimentTrader.notify_order` (`sentiment.py` lines 87-94): on
`Completed`, `Canceled` or `Rejected`, clear the in-flight order flag;
any other status leaves the strategy untouched (the completed branch
only prints). -/
def notify_order (s : StratState) (status : OrderStatus) : StratState :=
  if status = OrderStatus.Completed ∨ status = OrderStatus.Canceled ∨
      status = OrderStatus.Rejected then
    { s with order := false }
  else s

/-- `TraderDatabase.get_user_portfolios` (`sentiment.py` lines 174-188).
`user` is the result of `get_user_by_email` (already `None` when that
lookup failed or found no row); `fetch` is the portfolios select, either
its rows or the exception it raised.  The code returns `None` when the
user is missing and `None` from the `except` branch. -/
def get_user_portfolios (user : Option User)
    (fetch : Except String (List Portfolio)) : Option (List Portfolio) :=
  match user with
  | none => none
  | some _ =>
      match fetch with
      | Except.error _ => none
      | Except.ok rows => some rows

/-- Insert into a Python-dict model (association list): a later binding
for the same key overwrites the earlier one. -/
def dictInsert (d : List (String × Holding)) (k : String) (v : Holding) :
    List (String × Holding) :=
  (d.filter (fun kv => kv.1 ≠ k)) ++ [(k, v)]

/-- `TraderDatabase.get_portfolio_holdings` (`sentiment.py` lines
206-220): build the symbol-keyed dict of holding rows; return the empty
dict when the select returned no rows or raised. -/
def get_portfolio_holdings (fetch : Except String (List Holding)) :
    List (String × Holding) :=
  match fetch with
  | Except.error _ => []
  | Except.ok rows =>
      if rows.isEmpty then []
      else rows.foldl (fun d h => dictInsert d h.symbol h) []

/-- `TraderDatabase.transactions_by_portfolio` (`sentiment.py` lines
234-247): the set of symbols appearing in the portfolio's transactions;
the empty set when the select returned no rows or raised. -/
def transactions_by_portfolio (fetch : Except String (List Transaction)) :
    Finset String :=
  match fetch with
  | Except.error _ => ∅
  | Except.ok rows => (rows.map (fun t => t.symbol)).toFinset

/-- The result dict returned by `BacktestRunner.run_backtest`
(`sentiment.py` lines 462-469). -/
structure BacktestResult where
  portfolio_id : Nat
  initial_cash : ℚ
  final_value : ℚ
  total_return : ℚ
  return_percentage : ℚ
  symbol : String
  deriving DecidableEq, Repr

/-- The broker portfolio value `cerebro.broker.getvalue()`: cash plus
the open position marked at the current price. -/
def brokerValue (rs : RunState) (price : ℚ) : ℚ :=
  rs.cash + (rs.strat.position : ℚ) * price

/-- `BacktestRunner.run_backtest` (`sentiment.py` lines 380-469) after
setup: a single pass of `next` over the bar sequence (each bar a closing
price paired with the sentiment score fetched that day), then — once,
after the pass — `final_value = broker.getvalue()`,
`total_return = final_value - initial_cash` and
`return_percentage = (total_return / initial_cash) * 100`, packaged into
the result dict.  Returns the result together with the final database. -/
def run_backtest (p : Params) (initial_cash : ℚ) (db0 : Database)
    (bars : List (ℚ × ℚ)) : BacktestResult × Database :=
  let init : RunState := ⟨⟨0, 0, false⟩, initial_cash, db0⟩
  let final := bars.foldl (fun rs b => nextStep p b.1 b.2 rs) init
  let lastPrice := ((bars.getLast?).map Prod.fst).getD 0
  let final_value := brokerValue final lastPrice
  let total_return := final_value - initial_cash
  let return_percentage := (total_return / initial_cash) * 100
  (⟨p.portfolio_id, initial_cash, final_value, total_return,
     return_percentage, p.symbol⟩, final.db)

/-- One event seen by the strategy during a run: a bar (a `next` call
with that bar's closing price and sentiment score) or an order
notification from the engine. -/
inductive Event
  | bar (price score : ℚ)
  | notify (status : OrderStatus)

/-- Apply one event to the run state. -/
def applyEvent (p : Params) (rs : RunState) : Event → RunState
  | Event.bar price score => nextStep p price score rs
  | Event.notify status => { rs with strat := notify_order rs.strat status }

/-- Run the strategy over a sequence of events. -/
def runEvents (p : Params) (rs : RunState) (events : List Event) : RunState :=
  events.foldl (applyEvent p) rs

/-! ### Concrete fixtures used by counterexamples and witnesses -/

/-- A demo portfolio row. -/
def demoPortfolio : Portfolio := ⟨7, 1, "Backtest Portfolio", 10000⟩

/-- A demo database with one portfolio and no transactions or holdings. -/
def demoDb : Database := ⟨[demoPortfolio], [], []⟩

/-- Demo strategy parameters: threshold 0.01, hold_days 60, as in
`run_active_backtest (symbol='WDAY', hold_days=60)`. -/
def demoParams : Params := ⟨"WDAY", 7, 1 / 100, 60⟩

/-! ### C4: transaction sign convention -/

/-- C4: for a trade with positive share count `q`, `execute_buy_order`
appends a transaction row with quantity `q` (positive) and type `buy`,
and `execute_sell_order` appends a row with quantity `-q` (negative) and
type `sell`; stored quantities are positive exactly for buys and
negative exactly for sells. -/
theorem tx_sign_convention (db : Database) (pid : Nat) (sym : String)
    (q : Int) (price : ℚ) (hq : 0 < q) :
    ((execute_buy_order db pid sym q price).transactions =
        db.transactions ++ [⟨pid, sym, q, price, "buy"⟩] ∧ 0 < q) ∧
    ((execute_sell_order db pid sym q price).transactions =
        db.transactions ++ [⟨pid, sym, -q, price, "sell"⟩] ∧ -q < 0) := by
  refine ⟨⟨?_, hq⟩, rfl, by omega⟩
  unfold execute_buy_order update_holding
  dsimp only
  split <;> rfl

/-- Witness for C4 at a concrete buy/sell of 5 shares at price 100. -/
theorem tx_sign_convention_witness :
    ((execute_buy_order demoDb 7 "WDAY" 5 100).transactions =
        demoDb.transactions ++ [⟨7, "WDAY", 5, 100, "buy"⟩] ∧ (0 : Int) < 5) ∧
    ((execute_sell_order demoDb 7 "WDAY" 5 100).transactions =
        demoDb.transactions ++ [⟨7, "WDAY", -5, 100, "sell"⟩] ∧ (-5 : Int) < 0) :=
  tx_sign_convention demoDb 7 "WDAY" 5 100 (by norm_num)

/-! ### C8: order notification handling -/

/-- C8: `notify_order` clears the in-flight order flag exactly on status
`Completed`, `Canceled` or `Rejected`, and leaves the whole strategy
state unchanged on any other status; no other field is touched. -/
theorem notify_order_spec (s : StratState) (status : OrderStatus) :
    ((status = OrderStatus.Completed ∨ status = OrderStatus.Canceled ∨
        status = OrderStatus.Rejected) →
      notify_order s status = { s with order := false }) ∧
    (¬(status = OrderStatus.Completed ∨ status = OrderStatus.Canceled ∨
        status = OrderStatus.Rejected) →
      notify_order s status = s) := by
  constructor <;> intro h <;> simp [notify_order, h]

/-- Witness for C8: a completed order clears the flag; a submitted order
changes nothing. -/
theorem notify_order_spec_witness :
    notify_order ⟨3, 2, true⟩ OrderStatus.Completed = ⟨3, 2, false⟩ ∧
    notify_order ⟨3, 2, true⟩ OrderStatus.Submitted = ⟨3, 2, true⟩ :=
  ⟨(notify_order_spec ⟨3, 2, true⟩ OrderStatus.Completed).1 (Or.inl rfl),
   (notify_order_spec ⟨3, 2, true⟩ OrderStatus.Submitted).2 (by simp)⟩

/-! ### C3: sentiment scoring -/

/-- C3: `get_sentiment` returns 0 when the fetch raised, 0 when the
headline list is empty, and otherwise the arithmetic mean of the
polarity scores of at most the first 10 headlines. -/
theorem get_sentiment_spec (e : String) (l : List ℚ) :
    get_sentiment (Except.error e) = 0 ∧
    get_sentiment (Except.ok []) = 0 ∧
    (l.take 10 ≠ [] →
      get_sentiment (Except.ok l) =
        (l.take 10).sum / ((l.take 10).length : ℚ)) := by
  refine ⟨rfl, rfl, fun h => ?_⟩
  simp only [get_sentiment, List.isEmpty_iff, h]
  simp

/-- Witness for C3: two headlines with polarities 1/2 and 1 average to
3/4. -/
theorem get_sentiment_spec_witness :
    get_sentiment (Except.ok [(1 : ℚ) / 2, 1]) =
      (([(1 : ℚ) / 2, 1].take 10).sum / (([(1 : ℚ) / 2, 1].take 10).length : ℚ)) :=
  (get_sentiment_spec "" [(1 : ℚ) / 2, 1]).2.2 (by simp)

/-! ### C6: read accessors on database errors -/

/-- C6 counterexample: when the portfolios select raises,
`get_user_portfolios` returns `None`, not an empty list — so the claim
that every read accessor returns an empty collection on exceptions is
false for this accessor. -/
theorem get_user_portfolios_error_returns_none :
    get_user_portfolios (some ⟨1, "a@b.com"⟩) (Except.error "db down") = none ∧
    (none : Option (List Portfolio)) ≠ some [] :=
  ⟨rfl, by simp⟩

/-- C6 amended: on any raised exception, `get_portfolio_holdings`
returns the empty dict and `transactions_by_portfolio` the empty set,
while `get_user_portfolios` returns `None` (also when the user lookup
already failed), not an empty list. -/
theorem read_accessor_error_defaults (e : String) (u : User) :
    get_user_portfolios (some u) (Except.error e) = none ∧
    get_user_portfolios none (Except.error e) = none ∧
    get_portfolio_holdings (Except.error e) = [] ∧
    transactions_by_portfolio (Except.error e) = ∅ :=
  ⟨rfl, rfl, rfl, rfl⟩

/-! ### C5: effect of trades on the portfolio record -/

/-- C5 counterexample: a simulated buy recorded through
`execute_buy_order` leaves the portfolios table — including the owning
portfolio's `cash_balance` — completely unchanged, so the claim that the
persisted cash balance is mutated on each simulated trade is false. -/
theorem trade_leaves_portfolio_row_unchanged :
    (execute_buy_order demoDb 7 "WDAY" 5 100).portfolios = [demoPortfolio] ∧
    (execute_sell_order demoDb 7 "WDAY" 5 100).portfolios = [demoPortfolio] ∧
    demoPortfolio.cash_balance = 10000 := by
  refine ⟨?_, rfl, rfl⟩
  unfold execute_buy_order update_holding
  dsimp only
  split <;> rfl

/-- C5 amended: no simulated trade touches the portfolios table; the
cash balance is written once per backtest, by the frontend calling
`update_portfolio_cash` with the final portfolio value, and that update
changes only the matching row's `cash_balance`, leaving every row's id,
owning user and name intact. -/
theorem portfolio_cash_written_once_per_backtest (db : Database) (pid : Nat)
    (sym : String) (q : Int) (price v : ℚ) :
    (execute_buy_order db pid sym q price).portfolios = db.portfolios ∧
    (execute_sell_order db pid sym q price).portfolios = db.portfolios ∧
    List.Forall₂ (fun old new =>
        new.portfolio_id = old.portfolio_id ∧ new.user_id = old.user_id ∧
        new.name = old.name ∧
        new.cash_balance =
          (if old.portfolio_id = pid then v else old.cash_balance))
      db.portfolios (update_portfolio_cash db pid v).portfolios := by
  refine ⟨?_, rfl, ?_⟩
  · unfold execute_buy_order update_holding
    dsimp only
    split <;> rfl
  · unfold update_portfolio_cash
    dsimp only
    rw [List.forall₂_map_right_iff]
    rw [List.forall₂_same]
    intro x _
    by_cases h : x.portfolio_id = pid <;> simp [h]

/-! ### C7: backtest result computation -/

/-- C7: for a backtest with `initial_cash ≠ 0`, the reported result
fields satisfy `total_return = final_value - initial_cash` and
`return_percentage = (total_return / initial_cash) * 100`, computed from
the broker value after the single pass of `next` over the bar sequence,
and the reported `initial_cash`, `portfolio_id` and `symbol` are the
run's inputs. -/
theorem run_backtest_report_spec (p : Params) (initial_cash : ℚ)
    (db0 : Database) (bars : List (ℚ × ℚ)) (h : initial_cash ≠ 0) :
    (run_backtest p initial_cash db0 bars).1.total_return =
      (run_backtest p initial_cash db0 bars).1.final_value - initial_cash ∧
    (run_backtest p initial_cash db0 bars).1.return_percentage =
      ((run_backtest p initial_cash db0 bars).1.final_value - initial_cash) /
        initial_cash * 100 ∧
    (run_backtest p initial_cash db0 bars).1.final_value =
      brokerValue
        (runEvents p ⟨⟨0, 0, false⟩, initial_cash, db0⟩
          (bars.map (fun b => Event.bar b.1 b.2)))
        (((bars.getLast?).map Prod.fst).getD 0) ∧
    (run_backtest p initial_cash db0 bars).1.initial_cash = initial_cash ∧
    (run_backtest p initial_cash db0 bars).1.portfolio_id = p.portfolio_id ∧
    (run_backtest p initial_cash db0 bars).1.symbol = p.symbol := by
  refine ⟨rfl, rfl, ?_, rfl, rfl, rfl⟩
  simp [run_backtest, runEvents, brokerValue, List.foldl_map, applyEvent]

/-- Witness for C7 at a one-bar run with initial cash 10000. -/
theorem run_backtest_report_spec_witness :
    (run_backtest demoParams 10000 demoDb [(100, 1)]).1.total_return =
      (run_backtest demoParams 10000 demoDb [(100, 1)]).1.final_value - 10000 ∧
    (run_backtest demoParams 10000 demoDb [(100, 1)]).1.return_percentage =
      ((run_backtest demoParams 10000 demoDb [(100, 1)]).1.final_value - 10000) /
        10000 * 100 ∧
    (run_backtest demoParams 10000 demoDb [(100, 1)]).1.final_value =
      brokerValue
        (runEvents demoParams ⟨⟨0, 0, false⟩, 10000, demoDb⟩
          ([((100 : ℚ), (1 : ℚ))].map (fun b => Event.bar b.1 b.2)))
        ((([((100 : ℚ), (1 : ℚ))].getLast?).map Prod.fst).getD 0) ∧
    (run_backtest demoParams 10000 demoDb [(100, 1)]).1.initial_cash = 10000 ∧
    (run_backtest demoParams 10000 demoDb [(100, 1)]).1.portfolio_id =
      demoParams.portfolio_id ∧
    (run_backtest demoParams 10000 demoDb [(100, 1)]).1.symbol =
      demoParams.symbol :=
  run_backtest_report_spec demoParams 10000 demoDb [(100, 1)] (by norm_num)

/-! ### Branch characterizations of `next` -/

/-- The transactions list written by `execute_buy_order`. -/
lemma execute_buy_order_transactions (db : Database) (pid : Nat)
    (sym : String) (q : Int) (price : ℚ) :
    (execute_buy_order db pid sym q price).transactions =
      db.transactions ++ [⟨pid, sym, q, price, "buy"⟩] := by
  unfold execute_buy_order update_holding
  dsimp only
  split <;> rfl

/-- With an order in flight, `next` returns immediately. -/
lemma nextStep_pending (p : Params) (price score : ℚ) (rs : RunState)
    (h : rs.strat.order = true) : nextStep p price score rs = rs := by
  simp [nextStep, h]

/-- Flat, no pending order, hold signal: `next` does nothing. -/
lemma nextStep_flat_hold (p : Params) (price score : ℚ) (rs : RunState)
    (hord : rs.strat.order = false) (hpos : rs.strat.position = 0)
    (hs : ¬ score > p.sentiment_threshold) :
    nextStep p price score rs = rs := by
  simp [nextStep, hord, hpos, generate_signal, hs]

/-- Flat, no pending order, buy signal, positive size: `next` buys
`size = int(cash * 0.95 / price)` shares and records the buy. -/
lemma nextStep_flat_buy (p : Params) (price score : ℚ) (rs : RunState)
    (hord : rs.strat.order = false) (hpos : rs.strat.position = 0)
    (hs : score > p.sentiment_threshold)
    (hsize : 0 < pyInt (rs.cash * (95 / 100) / price)) :
    nextStep p price score rs =
      { strat := ⟨(pyInt (rs.cash * (95 / 100) / price)).toNat, 0, true⟩,
        cash := rs.cash - (pyInt (rs.cash * (95 / 100) / price) : ℚ) * price,
        db := execute_buy_order rs.db p.portfolio_id p.symbol
                (pyInt (rs.cash * (95 / 100) / price)) price } := by
  simp [nextStep, hord, hpos, generate_signal, hs, hsize]

/-- Flat, no pending order, buy signal, but the computed size is not
positive: `next` does nothing. -/
lemma nextStep_flat_buy_zero (p : Params) (price score : ℚ) (rs : RunState)
    (hord : rs.strat.order = false) (hpos : rs.strat.position = 0)
    (hs : score > p.sentiment_threshold)
    (hsize : pyInt (rs.cash * (95 / 100) / price) ≤ 0) :
    nextStep p price score rs = rs := by
  simp [nextStep, hord, hpos, generate_signal, hs, not_lt.mpr hsize]

/-- Holding, no pending order, counter reaching `hold_days`: `next`
sells the whole position at the closing price, records the sell, and
resets the counter. -/
lemma nextStep_holding_sell (p : Params) (price score : ℚ) (rs : RunState)
    (hord : rs.strat.order = false) (hpos : rs.strat.position ≠ 0)
    (hd : rs.strat.hold_counter + 1 ≥ p.hold_days) :
    nextStep p price score rs =
      { strat := ⟨0, 0, true⟩,
        cash := rs.cash + (rs.strat.position : ℚ) * price,
        db := execute_sell_order rs.db p.portfolio_id p.symbol
                (rs.strat.position : Int) price } := by
  simp [nextStep, hord, hpos, hd]

/-- Holding, no pending order, counter still below `hold_days`: `next`
only increments the counter. -/
lemma nextStep_holding_inc (p : Params) (price score : ℚ) (rs : RunState)
    (hord : rs.strat.order = false) (hpos : rs.strat.position ≠ 0)
    (hd : rs.strat.hold_counter + 1 < p.hold_days) :
    nextStep p price score rs =
      { rs with strat :=
          { rs.strat with hold_counter := rs.strat.hold_counter + 1 } } := by
  simp [nextStep, hord, hpos, Nat.not_le.mpr hd]

/-! ### C1: the FLAT-state step -/

/-- C1 counterexample: in the FLAT state with no pending order and a
sentiment score strictly above the threshold, when 95% of the available
cash (100) is below the price of one share (200), the step places no
buy order and changes nothing — contradicting the claim that a score
above the threshold always places a buy. -/
theorem flat_buy_claim_counterexample :
    ((1 : ℚ) > demoParams.sentiment_threshold) ∧
    nextStep demoParams 200 1 ⟨⟨0, 0, false⟩, 100, demoDb⟩ =
      ⟨⟨0, 0, false⟩, 100, demoDb⟩ := by
  constructor
  · simp only [demoParams]; norm_num
  · simp only [nextStep, generate_signal, demoParams, pyInt]
    norm_num

/-- C1 amended: in the FLAT state (no open position, no pending order),
if the score is strictly above the threshold and the integer size
`int(cash * 0.95 / price)` is positive, the step buys that many shares,
records the buy transaction, transitions to HOLDING with the in-flight
flag set, and resets the hold counter to 0; if the score is not above
the threshold, nothing changes. -/
theorem flat_step_spec (p : Params) (price score : ℚ) (rs : RunState)
    (hord : rs.strat.order = false) (hpos : rs.strat.position = 0) :
    (score > p.sentiment_threshold →
      0 < pyInt (rs.cash * (95 / 100) / price) →
      nextStep p price score rs =
        { strat := ⟨(pyInt (rs.cash * (95 / 100) / price)).toNat, 0, true⟩,
          cash := rs.cash - (pyInt (rs.cash * (95 / 100) / price) : ℚ) * price,
          db := execute_buy_order rs.db p.portfolio_id p.symbol
                  (pyInt (rs.cash * (95 / 100) / price)) price }) ∧
    (¬ score > p.sentiment_threshold → nextStep p price score rs = rs) :=
  ⟨fun hs hsize => nextStep_flat_buy p price score rs hord hpos hs hsize,
   fun hs => nextStep_flat_hold p price score rs hord hpos hs⟩

/-- Witness for C1 at cash 10000, price 100, score 1: 95 shares are
bought and the buy is recorded. -/
theorem flat_step_spec_witness :
    nextStep demoParams 100 1 ⟨⟨0, 0, false⟩, 10000, demoDb⟩ =
      { strat := ⟨(pyInt ((10000 : ℚ) * (95 / 100) / 100)).toNat, 0, true⟩,
        cash := 10000 - (pyInt ((10000 : ℚ) * (95 / 100) / 100) : ℚ) * 100,
        db := execute_buy_order demoDb 7 "WDAY"
                (pyInt ((10000 : ℚ) * (95 / 100) / 100)) 100 } :=
  (flat_step_spec demoParams 100 1 ⟨⟨0, 0, false⟩, 10000, demoDb⟩ rfl rfl).1
    (by simp only [demoParams]; norm_num) (by simp only [pyInt]; norm_num)

/-! ### C2: the HOLDING-state step -/

/-- C2 counterexample: a step taken with an open position (HOLDING) but
an order still in flight returns immediately: the hold counter stays at
3 instead of being incremented — contradicting the claim that the
counter is incremented on every bar in the HOLDING state. -/
theorem holding_step_claim_counterexample :
    ((⟨⟨5, 3, true⟩, 1000, demoDb⟩ : RunState).strat.position ≠ 0) ∧
    nextStep demoParams 100 1 ⟨⟨5, 3, true⟩, 1000, demoDb⟩ =
      ⟨⟨5, 3, true⟩, 1000, demoDb⟩ ∧
    (3 : Nat) ≠ 3 + 1 := by
  refine ⟨by simp, ?_, by omega⟩
  simp [nextStep]

/-- C2 amended: in the HOLDING state with no pending order, the step
increments the hold counter; when the incremented counter reaches the
configured `hold_days`, it sells the entire position, records a sell
transaction of the full position size at the bar's closing price,
transitions to FLAT with the in-flight flag set, and resets the counter
to 0; below `hold_days`, only the counter changes. -/
theorem holding_step_spec (p : Params) (price score : ℚ) (rs : RunState)
    (hord : rs.strat.order = false) (hpos : rs.strat.position ≠ 0) :
    (rs.strat.hold_counter + 1 ≥ p.hold_days →
      nextStep p price score rs =
        { strat := ⟨0, 0, true⟩,
          cash := rs.cash + (rs.strat.position : ℚ) * price,
          db := execute_sell_order rs.db p.portfolio_id p.symbol
                  (rs.strat.position : Int) price }) ∧
    (rs.strat.hold_counter + 1 < p.hold_days →
      nextStep p price score rs =
        { rs with strat :=
            { rs.strat with hold_counter := rs.strat.hold_counter + 1 } }) :=
  ⟨fun hd => nextStep_holding_sell p price score rs hord hpos hd,
   fun hd => nextStep_holding_inc p price score rs hord hpos hd⟩

/-- Witness for C2: holding 95 shares with counter 59 and hold_days 60,
the step sells all 95 shares at 100 and resets the counter. -/
theorem holding_step_spec_witness :
    nextStep demoParams 100 0 ⟨⟨95, 59, false⟩, 500, demoDb⟩ =
      { strat := ⟨0, 0, true⟩,
        cash := 500 + ((95 : Nat) : ℚ) * 100,
        db := execute_sell_order demoDb 7 "WDAY" ((95 : Nat) : Int) 100 } :=
  (holding_step_spec demoParams 100 0 ⟨⟨95, 59, false⟩, 500, demoDb⟩
      rfl (by simp)).1 (by simp [demoParams])

/-! ### C10: whole-share gating of the FLAT buy -/

/-- C10: in the FLAT state with a buy signal (and nonnegative cash,
positive price), the computed size `int(cash * 0.95 / price)` is below 1
exactly when 95% of the cash is less than one share's price; in that
case the step changes nothing — no order, no database write; and when
the size is at least 1 the buy transaction is appended and the in-flight
flag is set. -/
theorem flat_buy_whole_share_gate (p : Params) (price score : ℚ)
    (rs : RunState) (hord : rs.strat.order = false)
    (hpos : rs.strat.position = 0) (hsig : score > p.sentiment_threshold)
    (hp : 0 < price) (hcash : 0 ≤ rs.cash) :
    (pyInt (rs.cash * (95 / 100) / price) < 1 ↔
      rs.cash * (95 / 100) < price) ∧
    (rs.cash * (95 / 100) < price → nextStep p price score rs = rs) ∧
    (1 ≤ pyInt (rs.cash * (95 / 100) / price) →
      (nextStep p price score rs).db.transactions =
        rs.db.transactions ++
          [⟨p.portfolio_id, p.symbol, pyInt (rs.cash * (95 / 100) / price),
            price, "buy"⟩] ∧
      (nextStep p price score rs).strat.order = true) := by
  have hq : 0 ≤ rs.cash * (95 / 100) / price :=
    div_nonneg (mul_nonneg hcash (by norm_num)) hp.le
  have hpy : pyInt (rs.cash * (95 / 100) / price) =
      ⌊rs.cash * (95 / 100) / price⌋ := if_pos hq
  have hiff : pyInt (rs.cash * (95 / 100) / price) < 1 ↔
      rs.cash * (95 / 100) < price := by
    rw [hpy]
    constructor
    · intro h
      have h2 : rs.cash * (95 / 100) / price < ((1 : ℤ) : ℚ) :=
        Int.floor_lt.mp h
      have h3 : rs.cash * (95 / 100) / price < 1 := by exact_mod_cast h2
      exact (div_lt_one hp).mp h3
    · intro h
      have h3 : rs.cash * (95 / 100) / price < 1 := (div_lt_one hp).mpr h
      exact Int.floor_lt.mpr (by exact_mod_cast h3)
  refine ⟨hiff, fun h => ?_, fun h => ?_⟩
  · have hle : pyInt (rs.cash * (95 / 100) / price) ≤ 0 := by
      have := hiff.mpr h
      omega
    exact nextStep_flat_buy_zero p price score rs hord hpos hsig hle
  · have hpos' : 0 < pyInt (rs.cash * (95 / 100) / price) := by omega
    have heq := nextStep_flat_buy p price score rs hord hpos hsig hpos'
    rw [heq]
    exact ⟨execute_buy_order_transactions rs.db p.portfolio_id p.symbol
      _ price, rfl⟩

/-- Witness for C10: with cash 100, price 200 and score 1, 95% of the
cash is below one share's price and the step is a no-op. -/
theorem flat_buy_whole_share_gate_witness :
    nextStep demoParams 200 1 ⟨⟨0, 0, false⟩, 100, demoDb⟩ =
      ⟨⟨0, 0, false⟩, 100, demoDb⟩ :=
  (flat_buy_whole_share_gate demoParams 200 1 ⟨⟨0, 0, false⟩, 100, demoDb⟩
      rfl rfl (by simp only [demoParams]; norm_num) (by norm_num)
      (by norm_num)).2.1 (by norm_num)

/-! ### C9: the hold-counter invariant -/

/-- One `next` call preserves `hold_counter < hold_days`. -/
lemma nextStep_hold_counter_lt (p : Params) (h1 : 1 ≤ p.hold_days)
    (price score : ℚ) (rs : RunState)
    (hinv : rs.strat.hold_counter < p.hold_days) :
    (nextStep p price score rs).strat.hold_counter < p.hold_days := by
  by_cases ho : rs.strat.order = true
  · rw [nextStep_pending p price score rs ho]
    exact hinv
  · have ho' : rs.strat.order = false := by simpa using ho
    by_cases hp : rs.strat.position = 0
    · by_cases hs : score > p.sentiment_threshold
      · by_cases hsz : 0 < pyInt (rs.cash * (95 / 100) / price)
        · rw [nextStep_flat_buy p price score rs ho' hp hs hsz]
          exact h1
        · rw [nextStep_flat_buy_zero p price score rs ho' hp hs
            (not_lt.mp hsz)]
          exact hinv
      · rw [nextStep_flat_hold p price score rs ho' hp hs]
        exact hinv
    · by_cases hd : rs.strat.hold_counter + 1 ≥ p.hold_days
      · rw [nextStep_holding_sell p price score rs ho' hp hd]
        exact h1
      · rw [nextStep_holding_inc p price score rs ho' hp (not_le.mp hd)]
        exact not_le.mp hd

/-- C9: for any `hold_days ≥ 1`, starting flat with `hold_counter = 0`,
the invariant `0 ≤ hold_counter < hold_days` holds after every strategy
step, for every sequence of bars (prices and sentiment scores) and order
notifications. -/
theorem hold_counter_invariant (p : Params) (cash0 : ℚ) (db0 : Database)
    (h1 : 1 ≤ p.hold_days) (events : List Event) :
    0 ≤ (runEvents p ⟨⟨0, 0, false⟩, cash0, db0⟩ events).strat.hold_counter ∧
    (runEvents p ⟨⟨0, 0, false⟩, cash0, db0⟩ events).strat.hold_counter <
      p.hold_days := by
  refine ⟨Nat.zero_le _, ?_⟩
  have key : ∀ (evs : List Event) (rs : RunState),
      rs.strat.hold_counter < p.hold_days →
      (runEvents p rs evs).strat.hold_counter < p.hold_days := by
    intro evs
    induction evs with
    | nil => exact fun rs h => h
    | cons e tl ih =>
        intro rs h
        have h' : (applyEvent p rs e).strat.hold_counter < p.hold_days := by
          cases e with
          | bar price score => exact nextStep_hold_counter_lt p h1 price score rs h
          | notify st =>
              simp only [applyEvent, notify_order]
              split <;> exact h
        exact ih (applyEvent p rs e) h'
  exact key events ⟨⟨0, 0, false⟩, cash0, db0⟩ h1

/-- Witness for C9: a concrete run (a buy bar, its completion notice,
and another bar) under hold_days 60 keeps the counter in range. -/
theorem hold_counter_invariant_witness :
    0 ≤ (runEvents demoParams ⟨⟨0, 0, false⟩, 10000, demoDb⟩
        [Event.bar 100 1, Event.notify OrderStatus.Completed,
         Event.bar 100 1]).strat.hold_counter ∧
    (runEvents demoParams ⟨⟨0, 0, false⟩, 10000, demoDb⟩
        [Event.bar 100 1, Event.notify OrderStatus.Completed,
         Event.bar 100 1]).strat.hold_counter < demoParams.hold_days :=
  hold_counter_invariant demoParams 10000 demoDb (by norm_num [demoParams])
    [Event.bar 100 1, Event.notify OrderStatus.Completed, Event.bar 100 1]

end SentimentTrader
